import Mathlib

/-!
Verification development for the iri-facility-api service.

The development shallowly embeds the core logic of the service:
the task-command canonicalization of app/routers/task/models.py
(TaskCommand.normalize_args, built on the pyhumps decamelize function),
the task dispatcher app/routers/task/facility_adapter.py (on_task),
the adapter resolution and authentication gate of app/routers/iri_router.py
(IriRouter.create_adapter, IriRouter.current_user), and the asynchronous
view endpoint of app/routers/filesystem/ontask.py (get_view).
-/

namespace IriApi

/-- Decidable equality of Except values, used to evaluate the embedded
functions at concrete inputs. -/
instance {e a : Type} [DecidableEq e] [DecidableEq a] : DecidableEq (Except e a) :=
  fun x y =>
    match x, y with
    | .ok v, .ok w => decidable_of_iff (v = w) (by simp)
    | .error v, .error w => decidable_of_iff (v = w) (by simp)
    | .ok _, .error _ => Decidable.isFalse (fun h => Except.noConfusion h)
    | .error _, .ok _ => Decidable.isFalse (fun h => Except.noConfusion h)

/-!
Python string primitives, ASCII fragment.

These model the behavior of Python str.lower / str.isupper / str.isnumeric
and of the pyhumps library's decamelize, as used by the args canonicalizer
in app/routers/task/models.py.  All keys handled by the service are ASCII
identifiers, so the ASCII fragment is the relevant interface of the library.
-/

def upperChars : List Char := "ABCDEFGHIJKLMNOPQRSTUVWXYZ".data

def lowerChars : List Char := "abcdefghijklmnopqrstuvwxyz".data

def digitChars : List Char := "0123456789".data

def caseTable : List (Char × Char) := upperChars.zip lowerChars

def pyIsUpper (c : Char) : Bool := upperChars.contains c

def pyIsLower (c : Char) : Bool := lowerChars.contains c

def pyIsDigit (c : Char) : Bool := digitChars.contains c

def pyToLower (c : Char) : Char :=
  (((caseTable.find? (fun p => p.1 == c)).map (fun p => p.2)).getD c)

/-- Python str.isupper restricted to ASCII: at least one cased character and
no lowercase character. -/
def strIsUpper (l : List Char) : Bool :=
  l.any (fun c => pyIsUpper c || pyIsLower c) && l.all (fun c => !pyIsLower c)

/-- Python str.isnumeric restricted to ASCII digits. -/
def strIsNumeric (l : List Char) : Bool :=
  !l.isEmpty && l.all pyIsDigit

/-- Python str.title on an all-uppercase regex group: first character kept,
remaining characters lowercased. -/
def titleCase : List Char → List Char
  | [] => []
  | c :: rest => c :: rest.map pyToLower

/--
One pass of the pyhumps ACRONYM_RE substitution, pattern
two groups: one or more uppercase letters, then an uppercase letter followed
by a lowercase letter; the replacement is the title-cased first group followed
by the unchanged second group.  The fuel argument bounds the recursion by the
input length, mirroring the left-to-right non-overlapping regex scan.
-/
def fixAbbrGo : Nat → List Char → List Char
  | 0, l => l
  | _ + 1, [] => []
  | fuel + 1, c :: rest =>
    if pyIsUpper c then
      match List.dropWhile pyIsUpper (c :: rest), List.takeWhile pyIsUpper (c :: rest) with
      | a :: after2, run =>
        if 2 ≤ run.length && pyIsLower a then
          titleCase run.dropLast ++ run.getLastD 'A' :: a :: fixAbbrGo fuel after2
        else c :: fixAbbrGo fuel rest
      | [], _ => c :: fixAbbrGo fuel rest
    else c :: fixAbbrGo fuel rest

def fixAbbr (l : List Char) : List Char := fixAbbrGo l.length l

/-- The pyhumps word-separation step: an underscore is inserted before every
uppercase character that is not the first character. -/
def sepWordsGo : List Char → List Char
  | [] => []
  | c :: rest => (if pyIsUpper c then ['_', c] else [c]) ++ sepWordsGo rest

def sepWords : List Char → List Char
  | [] => []
  | c :: rest => c :: sepWordsGo rest

/-- The pyhumps decamelize function on a single string: all-uppercase and
numeric strings are returned unchanged, all other strings are abbreviation
fixed, word separated and lowercased. -/
def decamelizeChars (l : List Char) : List Char :=
  if strIsUpper l || strIsNumeric l then l
  else (sepWords (fixAbbr l)).map pyToLower

def decamelize (s : String) : String := String.mk (decamelizeChars s.data)

/-!
Filesystem request models, from src/app/routers/filesystem/models.py.

Every request model inherits FilesystemRequestBase, whose path field is
declared Optional with validation aliases sourcePath and source_path and no
default (the key is required).  The model config generates camelCase
validation aliases for all other fields and sets populate_by_name, so each
field may also be populated by its canonical snake_case name.
-/

inductive CompressionType where
  | none
  | bzip2
  | gzip
  | xz
deriving DecidableEq

structure PutFileChmodRequest where
  path : Option String
  mode : String
deriving DecidableEq

structure PutFileChownRequest where
  path : Option String
  owner : Option String := some ""
  group : Option String := some ""
deriving DecidableEq

structure PostMakeDirRequest where
  path : Option String
  parent : Option Bool := some false
deriving DecidableEq

structure PostFileSymlinkRequest where
  path : Option String
  link_path : String
deriving DecidableEq

structure PostCompressRequest where
  path : Option String
  target_path : String
  match_pattern : Option String := Option.none
  dereference : Option Bool := some false
  compression : Option CompressionType := some CompressionType.gzip
deriving DecidableEq

structure PostExtractRequest where
  path : Option String
  target_path : String
  compression : Option CompressionType := some CompressionType.gzip
deriving DecidableEq

structure PostCopyRequest where
  path : Option String
  target_path : String
  dereference : Option Bool := some false
deriving DecidableEq

structure PostMoveRequest where
  path : Option String
  target_path : String
deriving DecidableEq

/-- The structured request models that can appear as the request_model
argument of a TaskCommand. -/
inductive ReqModel where
  | chmod (m : PutFileChmodRequest)
  | chown (m : PutFileChownRequest)
  | mkdir (m : PostMakeDirRequest)
  | symlink (m : PostFileSymlinkRequest)
  | compress (m : PostCompressRequest)
  | extractArchive (m : PostExtractRequest)
  | mv (m : PostMoveRequest)
  | cp (m : PostCopyRequest)
deriving DecidableEq

/-!
Python values as they appear in a TaskCommand args dict: scalars, pydantic
request models, and string-keyed dicts.  EntryList is an insertion-ordered
dict, matching Python dict semantics for the operations used by the code
(get, copy, single-key assignment).
-/

mutual
inductive Value where
  | vnull
  | vbool (b : Bool)
  | vint (n : Int)
  | vstr (s : String)
  | venum (c : CompressionType)
  | vmodel (m : ReqModel)
  | vdict (entries : EntryList)
deriving DecidableEq
inductive EntryList where
  | nil
  | cons (key : String) (val : Value) (rest : EntryList)
deriving DecidableEq
end

def elookup : EntryList → String → Option Value
  | .nil, _ => Option.none
  | .cons k v rest, key => if k == key then some v else elookup rest key

/-- Python dict single-key assignment: replace the value at the first
matching key, or append the binding when the key is absent. -/
def eupdate : EntryList → String → Value → EntryList
  | .nil, key, v => .cons key v .nil
  | .cons k v0 rest, key, v =>
      if k == key then .cons k v rest else .cons k v0 (eupdate rest key v)

mutual
/-- The pyhumps decamelize recursion over dict values: keys of nested dicts
are decamelized, scalar values and model objects are left unchanged. -/
def decamelizeValue : Value → Value
  | .vdict es => .vdict (decamelizeEntries es)
  | v => v
def decamelizeEntries : EntryList → EntryList
  | .nil => .nil
  | .cons k v rest => .cons (decamelize k) (decamelizeValue v) (decamelizeEntries rest)
end

/-!
Serialization of a request model with model_dump(by_alias=False): a mapping
from canonical snake_case field names, in declaration order, to the python
values of the fields (enum members stay enum members in python dump mode).
-/

def optStrV : Option String → Value
  | Option.none => .vnull
  | some s => .vstr s

def optBoolV : Option Bool → Value
  | Option.none => .vnull
  | some b => .vbool b

def optCompV : Option CompressionType → Value
  | Option.none => .vnull
  | some c => .venum c

def dumpChmod (m : PutFileChmodRequest) : EntryList :=
  .cons "path" (optStrV m.path) (.cons "mode" (.vstr m.mode) .nil)

def dumpChown (m : PutFileChownRequest) : EntryList :=
  .cons "path" (optStrV m.path)
    (.cons "owner" (optStrV m.owner) (.cons "group" (optStrV m.group) .nil))

def dumpMkdir (m : PostMakeDirRequest) : EntryList :=
  .cons "path" (optStrV m.path) (.cons "parent" (optBoolV m.parent) .nil)

def dumpSymlink (m : PostFileSymlinkRequest) : EntryList :=
  .cons "path" (optStrV m.path) (.cons "link_path" (.vstr m.link_path) .nil)

def dumpCompress (m : PostCompressRequest) : EntryList :=
  .cons "path" (optStrV m.path)
    (.cons "target_path" (.vstr m.target_path)
      (.cons "match_pattern" (optStrV m.match_pattern)
        (.cons "dereference" (optBoolV m.dereference)
          (.cons "compression" (optCompV m.compression) .nil))))

def dumpExtract (m : PostExtractRequest) : EntryList :=
  .cons "path" (optStrV m.path)
    (.cons "target_path" (.vstr m.target_path)
      (.cons "compression" (optCompV m.compression) .nil))

def dumpMv (m : PostMoveRequest) : EntryList :=
  .cons "path" (optStrV m.path) (.cons "target_path" (.vstr m.target_path) .nil)

def dumpCp (m : PostCopyRequest) : EntryList :=
  .cons "path" (optStrV m.path)
    (.cons "target_path" (.vstr m.target_path)
      (.cons "dereference" (optBoolV m.dereference) .nil))

def dumpModel : ReqModel → EntryList
  | .chmod m => dumpChmod m
  | .chown m => dumpChown m
  | .mkdir m => dumpMkdir m
  | .symlink m => dumpSymlink m
  | .compress m => dumpCompress m
  | .extractArchive m => dumpExtract m
  | .mv m => dumpMv m
  | .cp m => dumpCp m

/-!
Validation of a request model with model_validate, reading each field by its
validation aliases first and then by its canonical name (populate_by_name).
-/

def lookup2 (es : EntryList) (k1 k2 : String) : Option Value :=
  match elookup es k1 with
  | some v => some v
  | Option.none => elookup es k2

def lookup3 (es : EntryList) (k1 k2 k3 : String) : Option Value :=
  match elookup es k1 with
  | some v => some v
  | Option.none => lookup2 es k2 k3

/-- Lookup of the path field, alias choices sourcePath and source_path
before the canonical name path. -/
def lookupPath (es : EntryList) : Option Value :=
  lookup3 es "sourcePath" "source_path" "path"

def readStr : Option Value → Option String
  | some (.vstr s) => some s
  | _ => Option.none

def readOptStr : Option Value → Option (Option String)
  | some .vnull => some Option.none
  | some (.vstr s) => some (some s)
  | _ => Option.none

def readOptStrD (d : Option String) : Option Value → Option (Option String)
  | Option.none => some d
  | some .vnull => some Option.none
  | some (.vstr s) => some (some s)
  | some _ => Option.none

def readOptBoolD (d : Option Bool) : Option Value → Option (Option Bool)
  | Option.none => some d
  | some .vnull => some Option.none
  | some (.vbool b) => some (some b)
  | some _ => Option.none

def parseComp (s : String) : Option CompressionType :=
  if s == "none" then some CompressionType.none
  else if s == "bzip2" then some CompressionType.bzip2
  else if s == "gzip" then some CompressionType.gzip
  else if s == "xz" then some CompressionType.xz
  else Option.none

def readOptCompD (d : Option CompressionType) : Option Value → Option (Option CompressionType)
  | Option.none => some d
  | some .vnull => some Option.none
  | some (.venum c) => some (some c)
  | some (.vstr s) => (parseComp s).map some
  | some _ => Option.none

def validateChmod : Value → Option PutFileChmodRequest
  | .vdict es => do
      let path ← readOptStr (lookupPath es)
      let mode ← readStr (elookup es "mode")
      some ⟨path, mode⟩
  | _ => Option.none

def validateChown : Value → Option PutFileChownRequest
  | .vdict es => do
      let path ← readOptStr (lookupPath es)
      let owner ← readOptStrD (some "") (elookup es "owner")
      let group ← readOptStrD (some "") (elookup es "group")
      some ⟨path, owner, group⟩
  | _ => Option.none

def validateMkdir : Value → Option PostMakeDirRequest
  | .vdict es => do
      let path ← readOptStr (lookupPath es)
      let parent ← readOptBoolD (some false) (elookup es "parent")
      some ⟨path, parent⟩
  | _ => Option.none

def validateSymlink : Value → Option PostFileSymlinkRequest
  | .vdict es => do
      let path ← readOptStr (lookupPath es)
      let lp ← readStr (lookup2 es "linkPath" "link_path")
      some ⟨path, lp⟩
  | _ => Option.none

def validateCompress : Value → Option PostCompressRequest
  | .vdict es => do
      let path ← readOptStr (lookupPath es)
      let tp ← readStr (lookup2 es "targetPath" "target_path")
      let mp ← readOptStrD Option.none (lookup2 es "matchPattern" "match_pattern")
      let de ← readOptBoolD (some false) (elookup es "dereference")
      let co ← readOptCompD (some CompressionType.gzip) (elookup es "compression")
      some ⟨path, tp, mp, de, co⟩
  | _ => Option.none

def validateExtract : Value → Option PostExtractRequest
  | .vdict es => do
      let path ← readOptStr (lookupPath es)
      let tp ← readStr (lookup2 es "targetPath" "target_path")
      let co ← readOptCompD (some CompressionType.gzip) (elookup es "compression")
      some ⟨path, tp, co⟩
  | _ => Option.none

def validateMv : Value → Option PostMoveRequest
  | .vdict es => do
      let path ← readOptStr (lookupPath es)
      let tp ← readStr (lookup2 es "targetPath" "target_path")
      some ⟨path, tp⟩
  | _ => Option.none

def validateCp : Value → Option PostCopyRequest
  | .vdict es => do
      let path ← readOptStr (lookupPath es)
      let tp ← readStr (lookup2 es "targetPath" "target_path")
      let de ← readOptBoolD (some false) (elookup es "dereference")
      some ⟨path, tp, de⟩
  | _ => Option.none

/-!
TaskCommand canonicalization, from src/app/routers/task/models.py.
-/

inductive TaskStatus where
  | pending
  | active
  | completed
  | failed
  | canceled
deriving DecidableEq

/-- The before-mode validator TaskCommand.normalize_args: non-dict input is
returned unchanged; otherwise the dict is copied and, when the request_model
entry is a pydantic model it is replaced by its non-aliased dump, and when it
is a dict it is replaced by its decamelization. -/
def normalize_args : Value → Value
  | .vdict es =>
      match elookup es "request_model" with
      | some (.vmodel m) => .vdict (eupdate es "request_model" (.vdict (dumpModel m)))
      | some (.vdict d) => .vdict (eupdate es "request_model" (.vdict (decamelizeEntries d)))
      | _ => .vdict es
  | v => v

/-!
Task dispatcher, from src/app/routers/task/facility_adapter.py
(FacilityAdapter.on_task).
-/

structure Resource where
  id : String
deriving DecidableEq

structure User where
  id : String
deriving DecidableEq

/-- A pydantic response model returned by a filesystem adapter operation;
its model_dump_json serialization is always a brace-enclosed JSON object
string, hence never empty. -/
structure RespModel where
  payload : String
deriving DecidableEq

def serializeResp (r : RespModel) : String := "\x7b" ++ r.payload ++ "\x7d"

/-- The behavior of the facility filesystem adapter bound to the filesystem
router: one field per adapter operation, giving for each invocation either a
raised exception message or the returned value. -/
structure FsOracle where
  chmod : Resource → User → PutFileChmodRequest → Except String RespModel
  chown : Resource → User → PutFileChownRequest → Except String RespModel
  file : Resource → User → EntryList → Except String RespModel
  stat : Resource → User → EntryList → Except String RespModel
  mkdir : Resource → User → PostMakeDirRequest → Except String RespModel
  symlink : Resource → User → PostFileSymlinkRequest → Except String RespModel
  ls : Resource → User → EntryList → Except String RespModel
  head : Resource → User → EntryList → Except String RespModel
  view : Resource → User → EntryList → Except String RespModel
  tail : Resource → User → EntryList → Except String RespModel
  checksum : Resource → User → EntryList → Except String RespModel
  rm : Resource → User → EntryList → Except String RespModel
  compress : Resource → User → PostCompressRequest → Except String RespModel
  extractArchive : Resource → User → PostExtractRequest → Except String RespModel
  mv : Resource → User → PostMoveRequest → Except String RespModel
  cp : Resource → User → PostCopyRequest → Except String RespModel
  download : Resource → User → EntryList → Except String String
  upload : Resource → User → EntryList → Except String Unit

/-- Modelled from the spec: the adapter-resolution step performed inside
on_task.  The dispatcher resolves the filesystem sub-domain adapter through
an IriRouter create_adapter entry point whose task-aware variant is not part
of the source snapshot (the src/app/routers/iri_router.py in the snapshot
predates the task plumbing and does not export the symbols the task module
imports); section 4.6 of the spec states that dispatch begins by resolving
the sub-domain adapter for the command router, so resolution is modelled as
succeeding with the bound adapter. -/
def resolveFsAdapter (o : FsOracle) : Except String FsOracle := .ok o

/-- Python dict subscript access args of the key request_model: a missing key
raises KeyError. -/
def getRM (args : EntryList) : Except String Value :=
  match elookup args "request_model" with
  | some v => .ok v
  | Option.none => .error "KeyError: request_model"

/-- Result of a model_validate call: a pydantic ValidationError is raised
when validation fails. -/
def validated {α : Type} : Option α → Except String α
  | some m => .ok m
  | Option.none => .error "pydantic validation error for request_model"

/-- The command dispatch chain of on_task for the filesystem router, in
source order.  Each branch either validates the structured request body and
invokes the corresponding adapter operation, or invokes the operation on the
raw keyword args; the serialized result is the value bound to r in the
source.  Falling through every branch leaves r as None. -/
def dispatchFs (o : FsOracle) (resource : Resource) (user : User)
    (command : String) (args : EntryList) : Except String (Option String) :=
  if command == "chmod" then do
    let rm ← getRM args
    let request_model ← validated (validateChmod rm)
    let resp ← o.chmod resource user request_model
    pure (some (serializeResp resp))
  else if command == "chown" then do
    let rm ← getRM args
    let request_model ← validated (validateChown rm)
    let resp ← o.chown resource user request_model
    pure (some (serializeResp resp))
  else if command == "file" then do
    let resp ← o.file resource user args
    pure (some (serializeResp resp))
  else if command == "stat" then do
    let resp ← o.stat resource user args
    pure (some (serializeResp resp))
  else if command == "mkdir" then do
    let rm ← getRM args
    let request_model ← validated (validateMkdir rm)
    let resp ← o.mkdir resource user request_model
    pure (some (serializeResp resp))
  else if command == "symlink" then do
    let rm ← getRM args
    let request_model ← validated (validateSymlink rm)
    let resp ← o.symlink resource user request_model
    pure (some (serializeResp resp))
  else if command == "ls" then do
    let resp ← o.ls resource user args
    pure (some (serializeResp resp))
  else if command == "head" then do
    let resp ← o.head resource user args
    pure (some (serializeResp resp))
  else if command == "view" then do
    let resp ← o.view resource user args
    pure (some (serializeResp resp))
  else if command == "tail" then do
    let resp ← o.tail resource user args
    pure (some (serializeResp resp))
  else if command == "checksum" then do
    let resp ← o.checksum resource user args
    pure (some (serializeResp resp))
  else if command == "rm" then do
    let resp ← o.rm resource user args
    pure (some (serializeResp resp))
  else if command == "compress" then do
    let rm ← getRM args
    let request_model ← validated (validateCompress rm)
    let resp ← o.compress resource user request_model
    pure (some (serializeResp resp))
  else if command == "extract" then do
    let rm ← getRM args
    let request_model ← validated (validateExtract rm)
    let resp ← o.extractArchive resource user request_model
    pure (some (serializeResp resp))
  else if command == "mv" then do
    let rm ← getRM args
    let request_model ← validated (validateMv rm)
    let resp ← o.mv resource user request_model
    pure (some (serializeResp resp))
  else if command == "cp" then do
    let rm ← getRM args
    let request_model ← validated (validateCp rm)
    let resp ← o.cp resource user request_model
    pure (some (serializeResp resp))
  else if command == "download" then do
    let s ← o.download resource user args
    pure (some s)
  else if command == "upload" then do
    let _ ← o.upload resource user args
    pure (some "File uploaded successfully")
  else pure Option.none

/-- The body of the try block of on_task: r stays None for a router other
than filesystem; for the filesystem router the adapter is resolved and the
command dispatched. -/
def onTaskBody (o : FsOracle) (resource : Resource) (user : User)
    (router command : String) (args : EntryList) : Except String (Option String) :=
  if router == "filesystem" then
    match resolveFsAdapter o with
    | .ok fs_adapter => dispatchFs fs_adapter resource user command args
    | .error e => .error e
  else .ok Option.none

def unknownMsg (router command : String) : String :=
  "Task was cancelled due to unknown router/command: " ++ router ++ ":" ++ command

/-- Python truthiness of a string: nonempty. -/
def pyTruthy (s : String) : Bool := !s.data.isEmpty

/-- FacilityAdapter.on_task: the try body computes r; a truthy r is returned
with completed status, a falsy r produces the unknown router/command failure,
and any exception is converted to an Error message with failed status. -/
def on_task (o : FsOracle) (resource : Resource) (user : User)
    (router command : String) (args : EntryList) : String × TaskStatus :=
  match onTaskBody o resource user router command args with
  | .ok (some r) =>
      if pyTruthy r then (r, TaskStatus.completed)
      else (unknownMsg router command, TaskStatus.failed)
  | .ok Option.none => (unknownMsg router command, TaskStatus.failed)
  | .error e => ("Error: " ++ e, TaskStatus.failed)

/-- The dispatch table of on_task: the command names with a branch in the
filesystem chain. -/
def knownCommand (c : String) : Bool :=
  c == "chmod" || c == "chown" || c == "file" || c == "stat" || c == "mkdir" ||
  c == "symlink" || c == "ls" || c == "head" || c == "view" || c == "tail" ||
  c == "checksum" || c == "rm" || c == "compress" || c == "extract" || c == "mv" ||
  c == "cp" || c == "download" || c == "upload"

def knownPair (router c : String) : Bool :=
  router == "filesystem" && knownCommand c

/-!
Substring containment on strings, used to state that failure messages carry
the expected text.
-/

def startsWithChars : List Char → List Char → Bool
  | _, [] => true
  | [], _ :: _ => false
  | a :: as, b :: bs => a == b && startsWithChars as bs

def containsChars (pat : List Char) : List Char → Bool
  | [] => startsWithChars [] pat
  | c :: rest => startsWithChars (c :: rest) pat || containsChars pat rest

def containsStr (s pat : String) : Bool := containsChars pat.data s.data

/-!
Adapter resolution and authentication gate, from
src/app/routers/iri_router.py (IriRouter.create_adapter and
IriRouter.current_user).
-/

/-- The environment configuration read by create_adapter: the value of the
IRI_API_ADAPTER_<router_name> variable for this router, and the value of
IRI_SHOW_MISSING_ROUTES. -/
structure EnvConfig where
  adapterVar : Option String
  showMissingRoutes : Option String
deriving DecidableEq

/-- Membership of the show-missing flag value in the accepted truthy
spellings; an unset variable (None) is not in the list. -/
def flagTruthy : Option String → Bool
  | some s => s == "true" || s == "1" || s == "on" || s == "yes"
  | Option.none => false

/-- An importable adapter class: whether it nominally subclasses the
sub-domain contract class (the issubclass test of create_adapter), and the
contract operations it concretely implements (contract operations outside
this list remain abstract). -/
structure AdapterClass where
  subclassOfContract : Bool
  implementedOps : List String
deriving DecidableEq

inductive InitResult where
  | ok (includeInSchema : Bool) (adapter : Option AdapterClass)
  | startupError (msg : String)
deriving DecidableEq

/-- IriRouter.create_adapter, run during router construction at startup.
The contract argument is the operation set of the sub-domain FacilityAdapter
interface; classes models the importlib lookup of a dotted class name.  When
the router's adapter variable is unset and the show-missing flag is not
truthy, the router is marked hidden from the schema and the method returns
before any adapter is assigned.  Otherwise the configured (or default) class
is imported, rejected with an exception when it is not a subclass of the
contract class, and instantiated; instantiating a subclass that leaves some
abstract contract operation unimplemented raises at startup through the ABC
machinery of the contract base class (that base module is not part of the
source snapshot; its fail-fast behavior is the one the spec states in
section 4.2). -/
def create_adapter (contract : List String) (env : EnvConfig)
    (classes : String → Option AdapterClass) : InitResult :=
  if env.adapterVar.isNone && !flagTruthy env.showMissingRoutes then
    InitResult.ok false Option.none
  else
    let adapter_name := env.adapterVar.getD "app.demo_adapter.DemoAdapter"
    match classes adapter_name with
    | Option.none => InitResult.startupError ("cannot import " ++ adapter_name)
    | some c =>
        if !c.subclassOfContract then
          InitResult.startupError (adapter_name ++ " should implement FacilityAdapter")
        else if contract.any (fun op => !c.implementedOps.contains op) then
          InitResult.startupError ("cannot instantiate abstract class " ++ adapter_name)
        else InitResult.ok true (some c)

/-- Modelled from the spec: the structural conformance check described in
section 4.2 of the spec, which accepts a backend exactly when it implements
every operation of the required contract, regardless of nominal typing.
This definition follows the spec's words and is compared against the check
create_adapter actually performs. -/
def structuralConformance (contract : List String) (c : AdapterClass) : Bool :=
  contract.all (fun op => c.implementedOps.contains op)

def isStartupError : InitResult → Bool
  | .startupError _ => true
  | .ok _ _ => false

/-- A direct invocation of a route handler reads router.adapter; when
create_adapter returned without assigning an adapter, the attribute access
raises AttributeError and the request fails instead of being served. -/
def invokeDirect : InitResult → Except String String
  | .startupError m => .error m
  | .ok _ Option.none => .error "AttributeError: IriRouter object has no attribute adapter"
  | .ok _ (some _) => .ok "handled by assigned adapter"

/-- Outcome of the adapter's get_current_user call inside the gate: a raised
exception, or the returned value (None or a user id string). -/
inductive ResolveOutcome where
  | raised (msg : String)
  | value (v : Option String)
deriving DecidableEq

inductive AuthResult where
  | unauthorized (statusCode : Nat) (detail : String)
  | proceed (currentUserId : String) (apiKey : String)
deriving DecidableEq

/-- IriRouter.current_user: user_id starts as None; the resolution call is
attempted and any exception it raises is swallowed and logged; a falsy
user_id (None, or an empty string) raises HTTPException 403 with detail
Unauthorized access; otherwise the resolved identity and the bearer
credential are attached to request state and the request proceeds. -/
def current_user (resolution : ResolveOutcome) (api_key : String) : AuthResult :=
  let user_id : Option String :=
    match resolution with
    | .raised _ => Option.none
    | .value v => v
  match user_id with
  | Option.none => AuthResult.unauthorized 403 "Unauthorized access"
  | some u =>
      if u.data.isEmpty then AuthResult.unauthorized 403 "Unauthorized access"
      else AuthResult.proceed u api_key

/-!
Asynchronous filesystem view endpoint, from
src/app/routers/filesystem/ontask.py (get_view).
-/

structure TaskCommandRecord where
  router : String
  command : String
  args : EntryList
deriving DecidableEq

inductive ViewOutcome where
  | httpError (statusCode : Nat) (detail : String)
  | taskSubmitted (cmd : TaskCommandRecord)
deriving DecidableEq

def OPS_SIZE_LIMIT : Int := 5 * 1024 * 1024

/-- Python x or d on an int: d when x is zero. -/
def pyOrInt (a d : Int) : Int := if a = 0 then d else a

/-- The get_view handler of the asynchronous filesystem router.  The
user_resource argument is the outcome of the _user_resource dependency (a
404 HTTPException, or the resolved user and resource, passed through
opaquely); the three range checks then guard the put_task submission.  The
router field of the submitted command is the sub-domain name filesystem. -/
def get_view (limit : Int) (user_resource : Except (Nat × String) Unit)
    (path : String) (size offset : Int) : ViewOutcome :=
  match user_resource with
  | .error e => ViewOutcome.httpError e.1 e.2
  | .ok _ =>
      if offset < 0 then
        ViewOutcome.httpError 400 "`offset` value must be an integer value equal or greater than 0"
      else if size ≤ 0 then
        ViewOutcome.httpError 400 "`size` value must be an integer value greater than 0"
      else if size > limit then
        ViewOutcome.httpError 400 ("`size` value must be less than " ++ toString limit ++ " bytes")
      else
        ViewOutcome.taskSubmitted ⟨"filesystem", "view",
          .cons "path" (.vstr path)
            (.cons "size" (.vint (pyOrInt size limit))
              (.cons "offset" (.vint (pyOrInt offset 0)) .nil))⟩

def putTaskCalled : ViewOutcome → Bool
  | .taskSubmitted _ => true
  | .httpError _ _ => false

def statusOf : ViewOutcome → Option Nat
  | .httpError code _ => some code
  | .taskSubmitted _ => Option.none

/-!
Concrete fixtures used to evaluate the embedded code at specific inputs.
-/

def demoResource : Resource := ⟨"res1"⟩

def demoUser : User := ⟨"alice"⟩

/-- A filesystem adapter whose every operation succeeds. -/
def demoOracle : FsOracle :=
  ⟨fun _ _ _ => .ok ⟨"ok"⟩, fun _ _ _ => .ok ⟨"ok"⟩, fun _ _ _ => .ok ⟨"ok"⟩,
   fun _ _ _ => .ok ⟨"ok"⟩, fun _ _ _ => .ok ⟨"ok"⟩, fun _ _ _ => .ok ⟨"ok"⟩,
   fun _ _ _ => .ok ⟨"ok"⟩, fun _ _ _ => .ok ⟨"ok"⟩, fun _ _ _ => .ok ⟨"ok"⟩,
   fun _ _ _ => .ok ⟨"ok"⟩, fun _ _ _ => .ok ⟨"ok"⟩, fun _ _ _ => .ok ⟨"ok"⟩,
   fun _ _ _ => .ok ⟨"ok"⟩, fun _ _ _ => .ok ⟨"ok"⟩, fun _ _ _ => .ok ⟨"ok"⟩,
   fun _ _ _ => .ok ⟨"ok"⟩, fun _ _ _ => .ok "data", fun _ _ _ => .ok ()⟩

/-- A filesystem adapter whose chmod operation raises. -/
def raisingChmodOracle : FsOracle :=
  ⟨fun _ _ _ => .error "disk failure", fun _ _ _ => .ok ⟨"ok"⟩, fun _ _ _ => .ok ⟨"ok"⟩,
   fun _ _ _ => .ok ⟨"ok"⟩, fun _ _ _ => .ok ⟨"ok"⟩, fun _ _ _ => .ok ⟨"ok"⟩,
   fun _ _ _ => .ok ⟨"ok"⟩, fun _ _ _ => .ok ⟨"ok"⟩, fun _ _ _ => .ok ⟨"ok"⟩,
   fun _ _ _ => .ok ⟨"ok"⟩, fun _ _ _ => .ok ⟨"ok"⟩, fun _ _ _ => .ok ⟨"ok"⟩,
   fun _ _ _ => .ok ⟨"ok"⟩, fun _ _ _ => .ok ⟨"ok"⟩, fun _ _ _ => .ok ⟨"ok"⟩,
   fun _ _ _ => .ok ⟨"ok"⟩, fun _ _ _ => .ok "data", fun _ _ _ => .ok ()⟩

/-- A filesystem adapter whose download operation succeeds with empty
content, as happens when the requested file is empty. -/
def emptyDownloadOracle : FsOracle :=
  ⟨fun _ _ _ => .ok ⟨"ok"⟩, fun _ _ _ => .ok ⟨"ok"⟩, fun _ _ _ => .ok ⟨"ok"⟩,
   fun _ _ _ => .ok ⟨"ok"⟩, fun _ _ _ => .ok ⟨"ok"⟩, fun _ _ _ => .ok ⟨"ok"⟩,
   fun _ _ _ => .ok ⟨"ok"⟩, fun _ _ _ => .ok ⟨"ok"⟩, fun _ _ _ => .ok ⟨"ok"⟩,
   fun _ _ _ => .ok ⟨"ok"⟩, fun _ _ _ => .ok ⟨"ok"⟩, fun _ _ _ => .ok ⟨"ok"⟩,
   fun _ _ _ => .ok ⟨"ok"⟩, fun _ _ _ => .ok ⟨"ok"⟩, fun _ _ _ => .ok ⟨"ok"⟩,
   fun _ _ _ => .ok ⟨"ok"⟩, fun _ _ _ => .ok "", fun _ _ _ => .ok ()⟩

/-- A canonicalized args dict for a chmod command. -/
def chmodArgs : EntryList :=
  .cons "request_model" (.vdict (dumpChmod ⟨some "/tmp/f", "777"⟩)) .nil

/-- The args dict holding a request model before canonicalization. -/
def singleRM (r : ReqModel) : Value :=
  .vdict (.cons "request_model" (.vmodel r) .nil)

/-- The stored args of a TaskCommand submitted with a structured request
model: the result of the normalize_args validator. -/
def storedArgs (r : ReqModel) : EntryList :=
  match normalize_args (singleRM r) with
  | .vdict es => es
  | _ => .nil

/-!
The camelCase alias spelling and the canonical snake_case spelling of each
structured request, as dict-shaped submissions built from the same model:
for each shape the two forms differ only in field-name casing/aliasing.  The
path field's camelCase alias is sourcePath (its AliasChoices spelling);
every other aliased field uses its camelized field name.
-/

def camelChmod (m : PutFileChmodRequest) : EntryList :=
  .cons "sourcePath" (optStrV m.path) (.cons "mode" (.vstr m.mode) .nil)

def snakeChmod (m : PutFileChmodRequest) : EntryList :=
  .cons "source_path" (optStrV m.path) (.cons "mode" (.vstr m.mode) .nil)

def camelChown (m : PutFileChownRequest) : EntryList :=
  .cons "sourcePath" (optStrV m.path)
    (.cons "owner" (optStrV m.owner) (.cons "group" (optStrV m.group) .nil))

def snakeChown (m : PutFileChownRequest) : EntryList :=
  .cons "source_path" (optStrV m.path)
    (.cons "owner" (optStrV m.owner) (.cons "group" (optStrV m.group) .nil))

def camelMkdir (m : PostMakeDirRequest) : EntryList :=
  .cons "sourcePath" (optStrV m.path) (.cons "parent" (optBoolV m.parent) .nil)

def snakeMkdir (m : PostMakeDirRequest) : EntryList :=
  .cons "source_path" (optStrV m.path) (.cons "parent" (optBoolV m.parent) .nil)

def camelSymlink (m : PostFileSymlinkRequest) : EntryList :=
  .cons "sourcePath" (optStrV m.path) (.cons "linkPath" (.vstr m.link_path) .nil)

def snakeSymlink (m : PostFileSymlinkRequest) : EntryList :=
  .cons "source_path" (optStrV m.path) (.cons "link_path" (.vstr m.link_path) .nil)

def camelCompress (m : PostCompressRequest) : EntryList :=
  .cons "sourcePath" (optStrV m.path)
    (.cons "targetPath" (.vstr m.target_path)
      (.cons "matchPattern" (optStrV m.match_pattern)
        (.cons "dereference" (optBoolV m.dereference)
          (.cons "compression" (optCompV m.compression) .nil))))

def snakeCompress (m : PostCompressRequest) : EntryList :=
  .cons "source_path" (optStrV m.path)
    (.cons "target_path" (.vstr m.target_path)
      (.cons "match_pattern" (optStrV m.match_pattern)
        (.cons "dereference" (optBoolV m.dereference)
          (.cons "compression" (optCompV m.compression) .nil))))

def camelExtract (m : PostExtractRequest) : EntryList :=
  .cons "sourcePath" (optStrV m.path)
    (.cons "targetPath" (.vstr m.target_path)
      (.cons "compression" (optCompV m.compression) .nil))

def snakeExtract (m : PostExtractRequest) : EntryList :=
  .cons "source_path" (optStrV m.path)
    (.cons "target_path" (.vstr m.target_path)
      (.cons "compression" (optCompV m.compression) .nil))

def camelMv (m : PostMoveRequest) : EntryList :=
  .cons "sourcePath" (optStrV m.path)
    (.cons "targetPath" (.vstr m.target_path) .nil)

def snakeMv (m : PostMoveRequest) : EntryList :=
  .cons "source_path" (optStrV m.path)
    (.cons "target_path" (.vstr m.target_path) .nil)

def camelCp (m : PostCopyRequest) : EntryList :=
  .cons "sourcePath" (optStrV m.path)
    (.cons "targetPath" (.vstr m.target_path)
      (.cons "dereference" (optBoolV m.dereference) .nil))

def snakeCp (m : PostCopyRequest) : EntryList :=
  .cons "source_path" (optStrV m.path)
    (.cons "target_path" (.vstr m.target_path)
      (.cons "dereference" (optBoolV m.dereference) .nil))

/-- The args dict of a TaskCommand submitted with a dict-shaped
request_model. -/
def dictRM (d : EntryList) : Value :=
  .vdict (.cons "request_model" (.vdict d) .nil)

/-- The stored args of a TaskCommand submitted with a dict-shaped
request_model: the result of the normalize_args validator. -/
def storedArgsOfDict (d : EntryList) : EntryList :=
  match normalize_args (dictRM d) with
  | .vdict es => es
  | _ => .nil

/-!
Theorems.
-/

theorem caseTable_fst : caseTable.map Prod.fst = upperChars := by decide

theorem pyToLower_not_upper (c : Char) : pyIsUpper (pyToLower c) = false := by
  unfold pyToLower
  cases h : caseTable.find? (fun p => p.1 == c) with
  | none =>
      show pyIsUpper c = false
      by_contra hc
      have hc2 : pyIsUpper c = true := by
        cases h2 : pyIsUpper c with
        | true => rfl
        | false => exact absurd h2 hc
      have hmem : c ∈ upperChars := by
        simpa [pyIsUpper, List.contains] using hc2
      rw [← caseTable_fst] at hmem
      rcases List.mem_map.mp hmem with ⟨p, hp, hfst⟩
      have := List.find?_eq_none.mp h p hp
      simp [hfst] at this
  | some p =>
      have hmem : p ∈ caseTable := List.mem_of_find?_eq_some h
      have : ∀ q ∈ caseTable, pyIsUpper q.2 = false := by decide
      simpa using this p hmem

theorem pyToLower_of_not_upper (c : Char) (h : pyIsUpper c = false) :
    pyToLower c = c := by
  unfold pyToLower
  cases hf : caseTable.find? (fun p => p.1 == c) with
  | none => simp
  | some p =>
      have hmem : p ∈ caseTable := List.mem_of_find?_eq_some hf
      have hpred := List.find?_some hf
      have hp1 : p.1 = c := by simpa using hpred
      have hup : ∀ q ∈ caseTable, pyIsUpper q.1 = true := by decide
      have := hup p hmem
      rw [hp1] at this
      rw [this] at h
      exact absurd h (by simp)

theorem fixAbbrGo_of_noUpper (fuel : Nat) (l : List Char)
    (h : ∀ c ∈ l, pyIsUpper c = false) : fixAbbrGo fuel l = l := by
  induction fuel generalizing l with
  | zero => rfl
  | succ n ih =>
      cases l with
      | nil => rfl
      | cons c rest =>
          have hc : pyIsUpper c = false := h c (by simp)
          have hrest : ∀ x ∈ rest, pyIsUpper x = false := fun x hx => h x (by simp [hx])
          simp [fixAbbrGo, hc, ih rest hrest]

theorem fixAbbr_of_noUpper (l : List Char)
    (h : ∀ c ∈ l, pyIsUpper c = false) : fixAbbr l = l :=
  fixAbbrGo_of_noUpper l.length l h

theorem sepWordsGo_of_noUpper (l : List Char)
    (h : ∀ c ∈ l, pyIsUpper c = false) : sepWordsGo l = l := by
  induction l with
  | nil => rfl
  | cons c rest ih =>
      have hc : pyIsUpper c = false := h c (by simp)
      have hrest : ∀ x ∈ rest, pyIsUpper x = false := fun x hx => h x (by simp [hx])
      simp [sepWordsGo, hc, ih hrest]

theorem sepWords_of_noUpper (l : List Char)
    (h : ∀ c ∈ l, pyIsUpper c = false) : sepWords l = l := by
  cases l with
  | nil => rfl
  | cons c rest =>
      have hrest : ∀ x ∈ rest, pyIsUpper x = false := fun x hx => h x (by simp [hx])
      simp [sepWords, sepWordsGo_of_noUpper rest hrest]

theorem map_pyToLower_of_noUpper (l : List Char)
    (h : ∀ c ∈ l, pyIsUpper c = false) : l.map pyToLower = l := by
  induction l with
  | nil => rfl
  | cons c rest ih =>
      have hc := pyToLower_of_not_upper c (h c (by simp))
      have hrest : ∀ x ∈ rest, pyIsUpper x = false := fun x hx => h x (by simp [hx])
      simp [hc, ih hrest]

theorem noUpper_map_pyToLower (l : List Char) :
    ∀ c ∈ l.map pyToLower, pyIsUpper c = false := by
  intro c hc
  rcases List.mem_map.mp hc with ⟨x, _, hx⟩
  rw [← hx]
  exact pyToLower_not_upper x

theorem decamelizeChars_idem (l : List Char) :
    decamelizeChars (decamelizeChars l) = decamelizeChars l := by
  by_cases g : (strIsUpper l || strIsNumeric l) = true
  · simp [decamelizeChars, g]
  · have g2 : (strIsUpper l || strIsNumeric l) = false := by
      cases h : (strIsUpper l || strIsNumeric l) with
      | true => exact absurd h g
      | false => rfl
    have step1 : decamelizeChars l = (sepWords (fixAbbr l)).map pyToLower := by
      simp [decamelizeChars, g2]
    rw [step1]
    set t := (sepWords (fixAbbr l)).map pyToLower with ht
    have hno : ∀ c ∈ t, pyIsUpper c = false := by
      rw [ht]; exact noUpper_map_pyToLower _
    by_cases g3 : (strIsUpper t || strIsNumeric t) = true
    · simp [decamelizeChars, g3]
    · have g4 : (strIsUpper t || strIsNumeric t) = false := by
        cases h : (strIsUpper t || strIsNumeric t) with
        | true => exact absurd h g3
        | false => rfl
      have step2 : decamelizeChars t = (sepWords (fixAbbr t)).map pyToLower := by
        simp [decamelizeChars, g4]
      rw [step2, fixAbbr_of_noUpper t hno, sepWords_of_noUpper t hno,
        map_pyToLower_of_noUpper t hno]

theorem decamelize_idem (s : String) :
    decamelize (decamelize s) = decamelize s := by
  unfold decamelize
  exact congrArg String.mk (decamelizeChars_idem s.data)

/-!
Lemmas about the canonicalization.
-/

theorem elookup_eupdate : ∀ (es : EntryList) (k : String) (v : Value),
    elookup (eupdate es k v) k = some v
  | .nil, k, v => by simp [eupdate, elookup]
  | .cons k0 v0 rest, k, v => by
      by_cases h : (k0 == k) = true
      · simp [eupdate, elookup, h]
      · have h2 : (k0 == k) = false := by
          cases h3 : (k0 == k) with
          | true => exact absurd h3 h
          | false => rfl
        simp [eupdate, elookup, h2, elookup_eupdate rest k v]

theorem eupdate_self : ∀ (es : EntryList) (k : String) (v : Value),
    elookup es k = some v → eupdate es k v = es
  | .nil, k, v => by intro h; simp [elookup] at h
  | .cons k0 v0 rest, k, v => by
      intro h
      by_cases hk : (k0 == k) = true
      · have hv : v0 = v := by
          have h4 := h
          simp [elookup, hk] at h4
          exact h4
        simp [eupdate, hk, hv]
      · have hk2 : (k0 == k) = false := by
          cases h3 : (k0 == k) with
          | true => exact absurd h3 hk
          | false => rfl
        have h2 : elookup rest k = some v := by
          have h4 := h
          simpa [elookup, hk2] using h4
        simp [eupdate, hk2, eupdate_self rest k v h2]

mutual
theorem decamelizeValue_idem : ∀ v : Value,
    decamelizeValue (decamelizeValue v) = decamelizeValue v
  | .vnull => rfl
  | .vbool _ => rfl
  | .vint _ => rfl
  | .vstr _ => rfl
  | .venum _ => rfl
  | .vmodel _ => rfl
  | .vdict es => by
      simp [decamelizeValue, decamelizeEntries_idem es]
theorem decamelizeEntries_idem : ∀ es : EntryList,
    decamelizeEntries (decamelizeEntries es) = decamelizeEntries es
  | .nil => rfl
  | .cons k v rest => by
      simp [decamelizeEntries, decamelize_idem k, decamelizeValue_idem v,
        decamelizeEntries_idem rest]
end

theorem decamelizeValue_optStrV (x : Option String) :
    decamelizeValue (optStrV x) = optStrV x := by
  cases x <;> rfl

theorem decamelizeValue_optBoolV (x : Option Bool) :
    decamelizeValue (optBoolV x) = optBoolV x := by
  cases x <;> rfl

theorem decamelizeValue_optCompV (x : Option CompressionType) :
    decamelizeValue (optCompV x) = optCompV x := by
  cases x <;> rfl

theorem decamelize_key_path : decamelize "path" = "path" := by decide

theorem decamelize_key_mode : decamelize "mode" = "mode" := by decide

theorem decamelize_key_owner : decamelize "owner" = "owner" := by decide

theorem decamelize_key_group : decamelize "group" = "group" := by decide

theorem decamelize_key_parent : decamelize "parent" = "parent" := by decide

theorem decamelize_key_link_path : decamelize "link_path" = "link_path" := by decide

theorem decamelize_key_target_path : decamelize "target_path" = "target_path" := by decide

theorem decamelize_key_match_pattern : decamelize "match_pattern" = "match_pattern" := by
  decide

theorem decamelize_key_dereference : decamelize "dereference" = "dereference" := by decide

theorem decamelize_key_compression : decamelize "compression" = "compression" := by decide

theorem decamelize_key_sourcePath : decamelize "sourcePath" = "source_path" := by decide

theorem decamelize_key_targetPath : decamelize "targetPath" = "target_path" := by decide

theorem decamelize_key_source_path : decamelize "source_path" = "source_path" := by decide

theorem decamelize_key_linkPath : decamelize "linkPath" = "link_path" := by decide

theorem decamelize_key_matchPattern : decamelize "matchPattern" = "match_pattern" := by
  decide

theorem decamelizeEntries_camelChmod (m : PutFileChmodRequest) :
    decamelizeEntries (camelChmod m) = snakeChmod m := by
  simp [camelChmod, snakeChmod, decamelizeEntries, decamelizeValue,
    decamelizeValue_optStrV, decamelize_key_sourcePath, decamelize_key_mode]

theorem decamelizeEntries_snakeChmod (m : PutFileChmodRequest) :
    decamelizeEntries (snakeChmod m) = snakeChmod m := by
  simp [snakeChmod, decamelizeEntries, decamelizeValue, decamelizeValue_optStrV,
    decamelize_key_source_path, decamelize_key_mode]

theorem decamelizeEntries_camelChown (m : PutFileChownRequest) :
    decamelizeEntries (camelChown m) = snakeChown m := by
  simp [camelChown, snakeChown, decamelizeEntries, decamelizeValue,
    decamelizeValue_optStrV, decamelize_key_sourcePath, decamelize_key_owner,
    decamelize_key_group]

theorem decamelizeEntries_snakeChown (m : PutFileChownRequest) :
    decamelizeEntries (snakeChown m) = snakeChown m := by
  simp [snakeChown, decamelizeEntries, decamelizeValue, decamelizeValue_optStrV,
    decamelize_key_source_path, decamelize_key_owner, decamelize_key_group]

theorem decamelizeEntries_camelMkdir (m : PostMakeDirRequest) :
    decamelizeEntries (camelMkdir m) = snakeMkdir m := by
  simp [camelMkdir, snakeMkdir, decamelizeEntries, decamelizeValue,
    decamelizeValue_optStrV, decamelizeValue_optBoolV, decamelize_key_sourcePath,
    decamelize_key_parent]

theorem decamelizeEntries_snakeMkdir (m : PostMakeDirRequest) :
    decamelizeEntries (snakeMkdir m) = snakeMkdir m := by
  simp [snakeMkdir, decamelizeEntries, decamelizeValue, decamelizeValue_optStrV,
    decamelizeValue_optBoolV, decamelize_key_source_path, decamelize_key_parent]

theorem decamelizeEntries_camelSymlink (m : PostFileSymlinkRequest) :
    decamelizeEntries (camelSymlink m) = snakeSymlink m := by
  simp [camelSymlink, snakeSymlink, decamelizeEntries, decamelizeValue,
    decamelizeValue_optStrV, decamelize_key_sourcePath, decamelize_key_linkPath]

theorem decamelizeEntries_snakeSymlink (m : PostFileSymlinkRequest) :
    decamelizeEntries (snakeSymlink m) = snakeSymlink m := by
  simp [snakeSymlink, decamelizeEntries, decamelizeValue, decamelizeValue_optStrV,
    decamelize_key_source_path, decamelize_key_link_path]

theorem decamelizeEntries_camelCompress (m : PostCompressRequest) :
    decamelizeEntries (camelCompress m) = snakeCompress m := by
  simp [camelCompress, snakeCompress, decamelizeEntries, decamelizeValue,
    decamelizeValue_optStrV, decamelizeValue_optBoolV, decamelizeValue_optCompV,
    decamelize_key_sourcePath, decamelize_key_targetPath,
    decamelize_key_matchPattern, decamelize_key_dereference,
    decamelize_key_compression]

theorem decamelizeEntries_snakeCompress (m : PostCompressRequest) :
    decamelizeEntries (snakeCompress m) = snakeCompress m := by
  simp [snakeCompress, decamelizeEntries, decamelizeValue, decamelizeValue_optStrV,
    decamelizeValue_optBoolV, decamelizeValue_optCompV, decamelize_key_source_path,
    decamelize_key_target_path, decamelize_key_match_pattern,
    decamelize_key_dereference, decamelize_key_compression]

theorem decamelizeEntries_camelExtract (m : PostExtractRequest) :
    decamelizeEntries (camelExtract m) = snakeExtract m := by
  simp [camelExtract, snakeExtract, decamelizeEntries, decamelizeValue,
    decamelizeValue_optStrV, decamelizeValue_optCompV, decamelize_key_sourcePath,
    decamelize_key_targetPath, decamelize_key_compression]

theorem decamelizeEntries_snakeExtract (m : PostExtractRequest) :
    decamelizeEntries (snakeExtract m) = snakeExtract m := by
  simp [snakeExtract, decamelizeEntries, decamelizeValue, decamelizeValue_optStrV,
    decamelizeValue_optCompV, decamelize_key_source_path,
    decamelize_key_target_path, decamelize_key_compression]

theorem decamelizeEntries_camelMv (m : PostMoveRequest) :
    decamelizeEntries (camelMv m) = snakeMv m := by
  simp [camelMv, snakeMv, decamelizeEntries, decamelizeValue,
    decamelizeValue_optStrV, decamelize_key_sourcePath, decamelize_key_targetPath]

theorem decamelizeEntries_snakeMv (m : PostMoveRequest) :
    decamelizeEntries (snakeMv m) = snakeMv m := by
  simp [snakeMv, decamelizeEntries, decamelizeValue, decamelizeValue_optStrV,
    decamelize_key_source_path, decamelize_key_target_path]

theorem decamelizeEntries_camelCp (m : PostCopyRequest) :
    decamelizeEntries (camelCp m) = snakeCp m := by
  simp [camelCp, snakeCp, decamelizeEntries, decamelizeValue,
    decamelizeValue_optStrV, decamelizeValue_optBoolV, decamelize_key_sourcePath,
    decamelize_key_targetPath, decamelize_key_dereference]

theorem decamelizeEntries_snakeCp (m : PostCopyRequest) :
    decamelizeEntries (snakeCp m) = snakeCp m := by
  simp [snakeCp, decamelizeEntries, decamelizeValue, decamelizeValue_optStrV,
    decamelizeValue_optBoolV, decamelize_key_source_path,
    decamelize_key_target_path, decamelize_key_dereference]

/-- The non-aliased dump of any request model is already canonical: all its
keys are snake_case and all its values are scalars, so decamelization leaves
it unchanged. -/
theorem decamelizeEntries_dumpModel (r : ReqModel) :
    decamelizeEntries (dumpModel r) = dumpModel r := by
  cases r with
  | chmod m =>
      simp [dumpModel, dumpChmod, decamelizeEntries, decamelizeValue,
        decamelizeValue_optStrV, decamelize_key_path, decamelize_key_mode]
  | chown m =>
      simp [dumpModel, dumpChown, decamelizeEntries, decamelizeValue,
        decamelizeValue_optStrV, decamelize_key_path, decamelize_key_owner,
        decamelize_key_group]
  | mkdir m =>
      simp [dumpModel, dumpMkdir, decamelizeEntries, decamelizeValue,
        decamelizeValue_optStrV, decamelizeValue_optBoolV, decamelize_key_path,
        decamelize_key_parent]
  | symlink m =>
      simp [dumpModel, dumpSymlink, decamelizeEntries, decamelizeValue,
        decamelizeValue_optStrV, decamelize_key_path, decamelize_key_link_path]
  | compress m =>
      simp [dumpModel, dumpCompress, decamelizeEntries, decamelizeValue,
        decamelizeValue_optStrV, decamelizeValue_optBoolV, decamelizeValue_optCompV,
        decamelize_key_path, decamelize_key_target_path, decamelize_key_match_pattern,
        decamelize_key_dereference, decamelize_key_compression]
  | extractArchive m =>
      simp [dumpModel, dumpExtract, decamelizeEntries, decamelizeValue,
        decamelizeValue_optStrV, decamelizeValue_optCompV, decamelize_key_path,
        decamelize_key_target_path, decamelize_key_compression]
  | mv m =>
      simp [dumpModel, dumpMv, decamelizeEntries, decamelizeValue,
        decamelizeValue_optStrV, decamelize_key_path, decamelize_key_target_path]
  | cp m =>
      simp [dumpModel, dumpCp, decamelizeEntries, decamelizeValue,
        decamelizeValue_optStrV, decamelizeValue_optBoolV, decamelize_key_path,
        decamelize_key_target_path, decamelize_key_dereference]

theorem normalize_args_idem_aux (v : Value) :
    normalize_args (normalize_args v) = normalize_args v := by
  cases v with
  | vnull => rfl
  | vbool b => rfl
  | vint n => rfl
  | vstr s => rfl
  | venum c => rfl
  | vmodel m => rfl
  | vdict es =>
      cases h : elookup es "request_model" with
      | none => simp [normalize_args, h]
      | some val =>
          cases val with
          | vnull => simp [normalize_args, h]
          | vbool b => simp [normalize_args, h]
          | vint n => simp [normalize_args, h]
          | vstr s => simp [normalize_args, h]
          | venum c => simp [normalize_args, h]
          | vmodel m =>
              have h1 : elookup (eupdate es "request_model"
                  (.vdict (dumpModel m))) "request_model"
                  = some (.vdict (dumpModel m)) := elookup_eupdate es _ _
              have step1 : normalize_args (.vdict es)
                  = .vdict (eupdate es "request_model" (.vdict (dumpModel m))) := by
                simp [normalize_args, h]
              rw [step1]
              have step2 : normalize_args (.vdict (eupdate es "request_model"
                  (.vdict (dumpModel m))))
                  = .vdict (eupdate (eupdate es "request_model" (.vdict (dumpModel m)))
                      "request_model" (.vdict (decamelizeEntries (dumpModel m)))) := by
                simp [normalize_args, h1]
              rw [step2, decamelizeEntries_dumpModel m, eupdate_self _ _ _ h1]
          | vdict d =>
              have h1 : elookup (eupdate es "request_model"
                  (.vdict (decamelizeEntries d))) "request_model"
                  = some (.vdict (decamelizeEntries d)) := elookup_eupdate es _ _
              have step1 : normalize_args (.vdict es)
                  = .vdict (eupdate es "request_model" (.vdict (decamelizeEntries d))) := by
                simp [normalize_args, h]
              rw [step1]
              have step2 : normalize_args (.vdict (eupdate es "request_model"
                  (.vdict (decamelizeEntries d))))
                  = .vdict (eupdate (eupdate es "request_model"
                      (.vdict (decamelizeEntries d)))
                      "request_model" (.vdict (decamelizeEntries (decamelizeEntries d)))) := by
                simp [normalize_args, h1]
              rw [step2, decamelizeEntries_idem d, eupdate_self _ _ _ h1]

theorem startsWithChars_append (pat rest : List Char) :
    startsWithChars (pat ++ rest) pat = true := by
  induction pat with
  | nil => simp [startsWithChars]
  | cons c cs ih => simp [startsWithChars, ih]

theorem containsChars_append (pre pat : List Char) :
    containsChars pat (pre ++ pat) = true := by
  induction pre with
  | nil =>
      cases pat with
      | nil => rfl
      | cons c cs =>
          have h := startsWithChars_append (c :: cs) []
          rw [List.append_nil] at h
          simp [containsChars, h]
  | cons p ps ih => simp [containsChars, ih]

theorem containsStr_append (a b : String) : containsStr (a ++ b) b = true := by
  unfold containsStr
  rw [String.data_append]
  exact containsChars_append a.data b.data

theorem pyTruthy_serializeResp (r : RespModel) :
    pyTruthy (serializeResp r) = true := by
  unfold pyTruthy serializeResp
  rw [String.data_append, String.data_append]
  rfl

/-!
Lemmas about the dispatcher.
-/

theorem dispatchFs_unknown (o : FsOracle) (resource : Resource) (user : User)
    (command : String) (args : EntryList) (h : knownCommand command = false) :
    dispatchFs o resource user command args = Except.ok Option.none := by
  unfold knownCommand at h
  simp only [Bool.or_eq_false_iff, beq_eq_false_iff_ne, ne_eq] at h
  obtain ⟨⟨⟨⟨⟨⟨⟨⟨⟨⟨⟨⟨⟨⟨⟨⟨⟨h1, h2⟩, h3⟩, h4⟩, h5⟩, h6⟩, h7⟩, h8⟩, h9⟩, h10⟩, h11⟩, h12⟩, h13⟩, h14⟩, h15⟩, h16⟩, h17⟩, h18⟩ := h
  simp [dispatchFs, h1, h2, h3, h4, h5, h6, h7, h8, h9, h10, h11, h12, h13, h14,
    h15, h16, h17, h18, pure, Except.pure]

theorem containsStr_of_data_split (s pre pat : String)
    (h : s.data = pre.data ++ pat.data) : containsStr s pat = true := by
  unfold containsStr
  rw [h]
  exact containsChars_append pre.data pat.data

theorem unknownMsg_contains (router command : String) :
    containsStr (unknownMsg router command)
      ("unknown router/command: " ++ router ++ ":" ++ command) = true := by
  apply containsStr_of_data_split _ "Task was cancelled due to "
  unfold unknownMsg
  simp [String.data_append, List.append_assoc]

/-!
Claim theorems.
-/

/-- C1: for every TaskCommand whose router and command pair is not in the
on_task dispatch table, on_task returns normally (no exception escapes for
the unrecognized pair) with a failed status whose result message contains
unknown router/command: router:command. -/
theorem on_task_unknown_pair_fails (o : FsOracle) (resource : Resource)
    (user : User) (router command : String) (args : EntryList)
    (h : knownPair router command = false) :
    on_task o resource user router command args
      = (unknownMsg router command, TaskStatus.failed)
    ∧ containsStr (on_task o resource user router command args).1
        ("unknown router/command: " ++ router ++ ":" ++ command) = true := by
  have hmain : on_task o resource user router command args
      = (unknownMsg router command, TaskStatus.failed) := by
    by_cases hr : (router == "filesystem") = true
    · have hcmd : knownCommand command = false := by
        unfold knownPair at h
        simpa [hr] using h
      have hd := dispatchFs_unknown o resource user command args hcmd
      simp [on_task, onTaskBody, hr, resolveFsAdapter, hd]
    · have hr2 : (router == "filesystem") = false := by
        cases h3 : (router == "filesystem") with
        | true => exact absurd h3 hr
        | false => rfl
      simp [on_task, onTaskBody, hr2]
  refine ⟨hmain, ?_⟩
  rw [hmain]
  exact unknownMsg_contains router command

theorem on_task_unknown_pair_fails_witness :
    knownPair "filesystem" "wipe" = false
    ∧ (on_task demoOracle demoResource demoUser "filesystem" "wipe" EntryList.nil
        = (unknownMsg "filesystem" "wipe", TaskStatus.failed)
      ∧ containsStr
          (on_task demoOracle demoResource demoUser "filesystem" "wipe" EntryList.nil).1
          ("unknown router/command: " ++ "filesystem" ++ ":" ++ "wipe") = true) :=
  ⟨by decide, on_task_unknown_pair_fails demoOracle demoResource demoUser
    "filesystem" "wipe" EntryList.nil (by decide)⟩

/-- C2: any exception raised inside the try block of on_task — in particular
any exception raised by the underlying adapter operation of a known command —
is caught and converted to data: on_task returns normally with status failed
and a result carrying the exception text, so no backend exception escapes to
the caller of on_task. -/
theorem on_task_catches_backend_exception (o : FsOracle) (resource : Resource)
    (user : User) (router command : String) (args : EntryList) (e : String)
    (h : onTaskBody o resource user router command args = Except.error e) :
    on_task o resource user router command args
      = ("Error: " ++ e, TaskStatus.failed)
    ∧ containsStr ("Error: " ++ e) e = true := by
  constructor
  · simp [on_task, h]
  · exact containsStr_append "Error: " e

theorem on_task_catches_backend_exception_witness :
    onTaskBody raisingChmodOracle demoResource demoUser "filesystem" "chmod" chmodArgs
      = Except.error "disk failure"
    ∧ (on_task raisingChmodOracle demoResource demoUser "filesystem" "chmod" chmodArgs
        = ("Error: " ++ "disk failure", TaskStatus.failed)
      ∧ containsStr ("Error: " ++ "disk failure") "disk failure" = true) :=
  ⟨by decide, on_task_catches_backend_exception raisingChmodOracle demoResource
    demoUser "filesystem" "chmod" chmodArgs "disk failure" (by decide)⟩

/-- C3 counterexample: with no adapter variable and the show-missing flag
unset, create_adapter hides the route group and returns before assigning any
adapter — even though the default backend class is importable and conforming
here — so a direct invocation fails on the missing adapter attribute instead
of being served by the default backend, refuting the claim that the hidden
route still functions backed by the default backend. -/
theorem hidden_route_not_backed_by_default :
    create_adapter ["ls"] ⟨Option.none, Option.none⟩
        (fun _ => some ⟨true, ["ls"]⟩)
      = InitResult.ok false Option.none
    ∧ invokeDirect (create_adapter ["ls"] ⟨Option.none, Option.none⟩
        (fun _ => some ⟨true, ["ls"]⟩))
      = Except.error "AttributeError: IriRouter object has no attribute adapter" :=
  ⟨by decide, by decide⟩

/-- C3 amended: if no backend is configured for a sub-domain and the
show-unconfigured-routes flag is not enabled, the route group is registered
but hidden from the discoverable schema; no adapter (in particular not the
default backend) is assigned in this branch, so a direct invocation fails on
the missing adapter attribute rather than being served by the default
backend. -/
theorem hidden_route_registered_without_adapter (contract : List String)
    (env : EnvConfig) (classes : String → Option AdapterClass)
    (h1 : env.adapterVar = Option.none)
    (h2 : flagTruthy env.showMissingRoutes = false) :
    create_adapter contract env classes = InitResult.ok false Option.none
    ∧ invokeDirect (create_adapter contract env classes)
      = Except.error "AttributeError: IriRouter object has no attribute adapter" := by
  have hmain : create_adapter contract env classes
      = InitResult.ok false Option.none := by
    simp [create_adapter, h1, h2]
  exact ⟨hmain, by rw [hmain]; rfl⟩

theorem hidden_route_registered_without_adapter_witness :
    (⟨Option.none, Option.none⟩ : EnvConfig).adapterVar = Option.none
    ∧ flagTruthy (⟨Option.none, Option.none⟩ : EnvConfig).showMissingRoutes = false
    ∧ (create_adapter ["ls"] ⟨Option.none, Option.none⟩ (fun _ => some ⟨true, ["ls"]⟩)
        = InitResult.ok false Option.none
      ∧ invokeDirect (create_adapter ["ls"] ⟨Option.none, Option.none⟩
          (fun _ => some ⟨true, ["ls"]⟩))
        = Except.error "AttributeError: IriRouter object has no attribute adapter") :=
  ⟨rfl, rfl, hidden_route_registered_without_adapter ["ls"]
    ⟨Option.none, Option.none⟩ (fun _ => some ⟨true, ["ls"]⟩) rfl rfl⟩

/-- C4: the authentication gate: when identity resolution raises, the
exception is swallowed (not propagated) and the request is rejected with 403
Unauthorized access; when resolution yields no identity (None, or the falsy
empty string) the request is likewise rejected; when it yields an identity,
that identity and the original credential are attached to request-scoped
state and the request proceeds. -/
theorem current_user_gate (r : ResolveOutcome) (k : String) :
    (∀ e, r = ResolveOutcome.raised e →
        current_user r k = AuthResult.unauthorized 403 "Unauthorized access")
    ∧ (r = ResolveOutcome.value Option.none →
        current_user r k = AuthResult.unauthorized 403 "Unauthorized access")
    ∧ (r = ResolveOutcome.value (some "") →
        current_user r k = AuthResult.unauthorized 403 "Unauthorized access")
    ∧ (∀ u, r = ResolveOutcome.value (some u) → u ≠ "" →
        current_user r k = AuthResult.proceed u k) := by
  refine ⟨fun e he => by rw [he]; rfl, fun he => by rw [he]; rfl,
    fun he => by rw [he]; rfl, fun u he hu => ?_⟩
  rw [he]
  have hd : u.data.isEmpty = false := by
    cases hd2 : u.data with
    | nil =>
        exfalso
        apply hu
        cases u with
        | mk d =>
            have hdd : d = [] := hd2
            subst hdd
            rfl
    | cons a as => rfl
  simp [current_user, hd]

theorem current_user_gate_witness :
    current_user (ResolveOutcome.raised "boom") "key123"
      = AuthResult.unauthorized 403 "Unauthorized access"
    ∧ current_user (ResolveOutcome.value (some "alice")) "key123"
      = AuthResult.proceed "alice" "key123" :=
  ⟨(current_user_gate (ResolveOutcome.raised "boom") "key123").1 "boom" rfl,
   (current_user_gate (ResolveOutcome.value (some "alice")) "key123").2.2.2
     "alice" rfl (by decide)⟩

/-- C5 counterexample: the conformance verification of create_adapter is the
nominal issubclass test, not a structural check: a configured backend class
implementing every contract operation but not nominally subclassing the
contract class is rejected at startup, although structural conformance
accepts it. -/
theorem create_adapter_check_is_nominal :
    structuralConformance ["chmod", "ls"] ⟨false, ["chmod", "ls"]⟩ = true
    ∧ create_adapter ["chmod", "ls"]
        ⟨some "facility.plugin.FsAdapter", Option.none⟩
        (fun n => if n == "facility.plugin.FsAdapter"
          then some ⟨false, ["chmod", "ls"]⟩ else Option.none)
      = InitResult.startupError
          "facility.plugin.FsAdapter should implement FacilityAdapter" :=
  ⟨by decide, by decide⟩

/-- C5 amended: every configured backend class failing structural conformance
with its sub-domain contract — in particular every class missing at least one
contract operation — makes create_adapter fail with a startup error, before
any request is served; the verification however is the nominal issubclass
test followed by abstract-method instantiation, not a structural conformance
check. -/
theorem create_adapter_rejects_nonconforming (contract : List String)
    (env : EnvConfig) (classes : String → Option AdapterClass)
    (name : String) (c : AdapterClass)
    (h1 : env.adapterVar = some name) (h2 : classes name = some c)
    (h3 : structuralConformance contract c = false) :
    isStartupError (create_adapter contract env classes) = true := by
  by_cases hs : c.subclassOfContract = true
  · have hmiss : ∃ x ∈ contract, x ∉ c.implementedOps := by
      unfold structuralConformance at h3
      by_contra hno
      push_neg at hno
      have h5 : contract.all (fun op => c.implementedOps.contains op) = true := by
        apply List.all_eq_true.mpr
        intro x hx
        simpa using hno x hx
      rw [h5] at h3
      exact Bool.noConfusion h3
    simp [create_adapter, h1, h2, hs, hmiss, isStartupError]
  · have hs2 : c.subclassOfContract = false := by
      cases h5 : c.subclassOfContract with
      | true => exact absurd h5 hs
      | false => rfl
    simp [create_adapter, h1, h2, hs2, isStartupError]

theorem create_adapter_rejects_nonconforming_witness :
    (⟨some "x.Incomplete", Option.none⟩ : EnvConfig).adapterVar
      = some "x.Incomplete"
    ∧ (fun n => if n == "x.Incomplete"
        then some (⟨true, []⟩ : AdapterClass) else Option.none) "x.Incomplete"
      = some ⟨true, []⟩
    ∧ structuralConformance ["chmod"] ⟨true, []⟩ = false
    ∧ isStartupError (create_adapter ["chmod"] ⟨some "x.Incomplete", Option.none⟩
        (fun n => if n == "x.Incomplete"
          then some ⟨true, []⟩ else Option.none)) = true :=
  ⟨rfl, by decide, by decide, create_adapter_rejects_nonconforming ["chmod"]
    ⟨some "x.Incomplete", Option.none⟩
    (fun n => if n == "x.Incomplete" then some ⟨true, []⟩ else Option.none)
    "x.Incomplete" ⟨true, []⟩ rfl (by decide) (by decide)⟩

/-- C6 failing input: download is in the dispatch table, yet when the
underlying download operation returns empty content without raising, the
falsy result makes on_task report status failed with the unknown
router/command message instead of completing with the serialized return
value: the truthiness test if r of on_task mistakes an empty success for the
unknown-command sentinel None. -/
theorem on_task_download_empty_misreported :
    knownPair "filesystem" "download" = true
    ∧ FsOracle.download emptyDownloadOracle demoResource demoUser EntryList.nil
      = Except.ok ""
    ∧ on_task emptyDownloadOracle demoResource demoUser "filesystem" "download"
        EntryList.nil
      = ("Task was cancelled due to unknown router/command: filesystem:download",
         TaskStatus.failed) :=
  ⟨by decide, by decide, by decide⟩

/-- C7: TaskCommand argument canonicalization is idempotent: applying
normalize_args twice yields the same mapping as applying it once, for every
argument value, in particular for every valid request-shaped mapping. -/
theorem normalize_args_idempotent (m : Value) :
    normalize_args (normalize_args m) = normalize_args m :=
  normalize_args_idem_aux m

/-- C8 counterexample: a pydantic request model and its camelCase alias dict
differ only in field-name aliasing of the structured request object — both
validate to the same PostMoveRequest — yet TaskCommand canonicalization
stores different args mappings for them: the model form stores the canonical
field name path while the dict form stores the decamelized alias
source_path. -/
theorem normalize_args_model_vs_alias_dict :
    validateMv (Value.vdict (.cons "sourcePath" (.vstr "/a")
        (.cons "targetPath" (.vstr "/b") .nil)))
      = some ⟨some "/a", "/b"⟩
    ∧ validateMv (Value.vdict (dumpMv ⟨some "/a", "/b"⟩)) = some ⟨some "/a", "/b"⟩
    ∧ normalize_args (singleRM (ReqModel.mv ⟨some "/a", "/b"⟩))
      ≠ normalize_args (Value.vdict (.cons "request_model"
          (Value.vdict (.cons "sourcePath" (.vstr "/a")
            (.cons "targetPath" (.vstr "/b") .nil))) .nil)) :=
  ⟨by decide, by decide, by decide⟩

/-- C8 amended: canonicalization is deterministic and alias-insensitive
across dict-shaped submissions: for every structured request shape (chmod,
chown, mkdir, symlink, compress, extract, mv, cp) and every request model of
that shape, the camelCase alias dict and the canonical snake_case dict —
which differ only in field-name casing/aliasing — canonicalize to the same
stored args mapping, and that stored mapping reconstructs the submitted
model; the model form however may store the canonical field name (path)
where a dict form stores the decamelized validation alias (source_path), so
the model form and an alias dict form of the same request need not store
identical mappings. -/
theorem normalize_args_alias_insensitive_for_dicts :
    (∀ m : PutFileChmodRequest,
        normalize_args (dictRM (camelChmod m)) = normalize_args (dictRM (snakeChmod m))
        ∧ elookup (storedArgsOfDict (camelChmod m)) "request_model"
          = some (Value.vdict (snakeChmod m))
        ∧ validateChmod (Value.vdict (snakeChmod m)) = some m)
    ∧ (∀ m : PutFileChownRequest,
        normalize_args (dictRM (camelChown m)) = normalize_args (dictRM (snakeChown m))
        ∧ elookup (storedArgsOfDict (camelChown m)) "request_model"
          = some (Value.vdict (snakeChown m))
        ∧ validateChown (Value.vdict (snakeChown m)) = some m)
    ∧ (∀ m : PostMakeDirRequest,
        normalize_args (dictRM (camelMkdir m)) = normalize_args (dictRM (snakeMkdir m))
        ∧ elookup (storedArgsOfDict (camelMkdir m)) "request_model"
          = some (Value.vdict (snakeMkdir m))
        ∧ validateMkdir (Value.vdict (snakeMkdir m)) = some m)
    ∧ (∀ m : PostFileSymlinkRequest,
        normalize_args (dictRM (camelSymlink m))
          = normalize_args (dictRM (snakeSymlink m))
        ∧ elookup (storedArgsOfDict (camelSymlink m)) "request_model"
          = some (Value.vdict (snakeSymlink m))
        ∧ validateSymlink (Value.vdict (snakeSymlink m)) = some m)
    ∧ (∀ m : PostCompressRequest,
        normalize_args (dictRM (camelCompress m))
          = normalize_args (dictRM (snakeCompress m))
        ∧ elookup (storedArgsOfDict (camelCompress m)) "request_model"
          = some (Value.vdict (snakeCompress m))
        ∧ validateCompress (Value.vdict (snakeCompress m)) = some m)
    ∧ (∀ m : PostExtractRequest,
        normalize_args (dictRM (camelExtract m))
          = normalize_args (dictRM (snakeExtract m))
        ∧ elookup (storedArgsOfDict (camelExtract m)) "request_model"
          = some (Value.vdict (snakeExtract m))
        ∧ validateExtract (Value.vdict (snakeExtract m)) = some m)
    ∧ (∀ m : PostMoveRequest,
        normalize_args (dictRM (camelMv m)) = normalize_args (dictRM (snakeMv m))
        ∧ elookup (storedArgsOfDict (camelMv m)) "request_model"
          = some (Value.vdict (snakeMv m))
        ∧ validateMv (Value.vdict (snakeMv m)) = some m)
    ∧ (∀ m : PostCopyRequest,
        normalize_args (dictRM (camelCp m)) = normalize_args (dictRM (snakeCp m))
        ∧ elookup (storedArgsOfDict (camelCp m)) "request_model"
          = some (Value.vdict (snakeCp m))
        ∧ validateCp (Value.vdict (snakeCp m)) = some m) := by
  refine ⟨?_, ?_, ?_, ?_, ?_, ?_, ?_, ?_⟩
  · intro m
    refine ⟨?_, ?_, ?_⟩
    · simp [dictRM, normalize_args, elookup, eupdate,
        decamelizeEntries_camelChmod, decamelizeEntries_snakeChmod]
    · simp [storedArgsOfDict, dictRM, normalize_args, elookup, eupdate,
        decamelizeEntries_camelChmod]
    · cases m with
      | mk path mode => cases path <;> rfl
  · intro m
    refine ⟨?_, ?_, ?_⟩
    · simp [dictRM, normalize_args, elookup, eupdate,
        decamelizeEntries_camelChown, decamelizeEntries_snakeChown]
    · simp [storedArgsOfDict, dictRM, normalize_args, elookup, eupdate,
        decamelizeEntries_camelChown]
    · cases m with
      | mk path owner group => cases path <;> cases owner <;> cases group <;> rfl
  · intro m
    refine ⟨?_, ?_, ?_⟩
    · simp [dictRM, normalize_args, elookup, eupdate,
        decamelizeEntries_camelMkdir, decamelizeEntries_snakeMkdir]
    · simp [storedArgsOfDict, dictRM, normalize_args, elookup, eupdate,
        decamelizeEntries_camelMkdir]
    · cases m with
      | mk path parent => cases path <;> cases parent <;> rfl
  · intro m
    refine ⟨?_, ?_, ?_⟩
    · simp [dictRM, normalize_args, elookup, eupdate,
        decamelizeEntries_camelSymlink, decamelizeEntries_snakeSymlink]
    · simp [storedArgsOfDict, dictRM, normalize_args, elookup, eupdate,
        decamelizeEntries_camelSymlink]
    · cases m with
      | mk path lp => cases path <;> rfl
  · intro m
    refine ⟨?_, ?_, ?_⟩
    · simp [dictRM, normalize_args, elookup, eupdate,
        decamelizeEntries_camelCompress, decamelizeEntries_snakeCompress]
    · simp [storedArgsOfDict, dictRM, normalize_args, elookup, eupdate,
        decamelizeEntries_camelCompress]
    · cases m with
      | mk path tp mp de co => cases path <;> cases mp <;> cases de <;> cases co <;> rfl
  · intro m
    refine ⟨?_, ?_, ?_⟩
    · simp [dictRM, normalize_args, elookup, eupdate,
        decamelizeEntries_camelExtract, decamelizeEntries_snakeExtract]
    · simp [storedArgsOfDict, dictRM, normalize_args, elookup, eupdate,
        decamelizeEntries_camelExtract]
    · cases m with
      | mk path tp co => cases path <;> cases co <;> rfl
  · intro m
    refine ⟨?_, ?_, ?_⟩
    · simp [dictRM, normalize_args, elookup, eupdate,
        decamelizeEntries_camelMv, decamelizeEntries_snakeMv]
    · simp [storedArgsOfDict, dictRM, normalize_args, elookup, eupdate,
        decamelizeEntries_camelMv]
    · cases m with
      | mk path tp => cases path <;> rfl
  · intro m
    refine ⟨?_, ?_, ?_⟩
    · simp [dictRM, normalize_args, elookup, eupdate,
        decamelizeEntries_camelCp, decamelizeEntries_snakeCp]
    · simp [storedArgsOfDict, dictRM, normalize_args, elookup, eupdate,
        decamelizeEntries_camelCp]
    · cases m with
      | mk path tp de => cases path <;> cases de <;> rfl

/-- C9: round-trip of structured request arguments: for each of the eight
structured commands (chmod, chown, mkdir, symlink, compress, extract, mv,
cp), the canonicalized args of a TaskCommand store the non-aliased dump of
the submitted request model under request_model, and validating that
flattened mapping reconstructs a model equal to the one originally
submitted. -/
theorem request_model_round_trip :
    (∀ m : PutFileChmodRequest,
        elookup (storedArgs (ReqModel.chmod m)) "request_model"
          = some (Value.vdict (dumpChmod m))
        ∧ validateChmod (Value.vdict (dumpChmod m)) = some m)
    ∧ (∀ m : PutFileChownRequest,
        elookup (storedArgs (ReqModel.chown m)) "request_model"
          = some (Value.vdict (dumpChown m))
        ∧ validateChown (Value.vdict (dumpChown m)) = some m)
    ∧ (∀ m : PostMakeDirRequest,
        elookup (storedArgs (ReqModel.mkdir m)) "request_model"
          = some (Value.vdict (dumpMkdir m))
        ∧ validateMkdir (Value.vdict (dumpMkdir m)) = some m)
    ∧ (∀ m : PostFileSymlinkRequest,
        elookup (storedArgs (ReqModel.symlink m)) "request_model"
          = some (Value.vdict (dumpSymlink m))
        ∧ validateSymlink (Value.vdict (dumpSymlink m)) = some m)
    ∧ (∀ m : PostCompressRequest,
        elookup (storedArgs (ReqModel.compress m)) "request_model"
          = some (Value.vdict (dumpCompress m))
        ∧ validateCompress (Value.vdict (dumpCompress m)) = some m)
    ∧ (∀ m : PostExtractRequest,
        elookup (storedArgs (ReqModel.extractArchive m)) "request_model"
          = some (Value.vdict (dumpExtract m))
        ∧ validateExtract (Value.vdict (dumpExtract m)) = some m)
    ∧ (∀ m : PostMoveRequest,
        elookup (storedArgs (ReqModel.mv m)) "request_model"
          = some (Value.vdict (dumpMv m))
        ∧ validateMv (Value.vdict (dumpMv m)) = some m)
    ∧ (∀ m : PostCopyRequest,
        elookup (storedArgs (ReqModel.cp m)) "request_model"
          = some (Value.vdict (dumpCp m))
        ∧ validateCp (Value.vdict (dumpCp m)) = some m) := by
  refine ⟨?_, ?_, ?_, ?_, ?_, ?_, ?_, ?_⟩
  · intro m
    refine ⟨rfl, ?_⟩
    cases m with
    | mk path mode => cases path <;> rfl
  · intro m
    refine ⟨rfl, ?_⟩
    cases m with
    | mk path owner group => cases path <;> cases owner <;> cases group <;> rfl
  · intro m
    refine ⟨rfl, ?_⟩
    cases m with
    | mk path parent => cases path <;> cases parent <;> rfl
  · intro m
    refine ⟨rfl, ?_⟩
    cases m with
    | mk path lp => cases path <;> rfl
  · intro m
    refine ⟨rfl, ?_⟩
    cases m with
    | mk path tp mp de co => cases path <;> cases mp <;> cases de <;> cases co <;> rfl
  · intro m
    refine ⟨rfl, ?_⟩
    cases m with
    | mk path tp co => cases path <;> cases co <;> rfl
  · intro m
    refine ⟨rfl, ?_⟩
    cases m with
    | mk path tp => cases path <;> rfl
  · intro m
    refine ⟨rfl, ?_⟩
    cases m with
    | mk path tp de => cases path <;> cases de <;> rfl

/-- C10: the asynchronous view endpoint rejects a request whose offset is
below zero, whose size is not positive, or whose size exceeds OPS_SIZE_LIMIT
with HTTP 400 before any task is submitted (put_task is not reached), and a
task is submitted only when all three checks pass. -/
theorem get_view_range_checks (limit : Int) (ur : Except (Nat × String) Unit)
    (path : String) (size offset : Int) :
    (ur = Except.ok () → (offset < 0 ∨ size ≤ 0 ∨ size > limit) →
        statusOf (get_view limit ur path size offset) = some 400
        ∧ putTaskCalled (get_view limit ur path size offset) = false)
    ∧ (putTaskCalled (get_view limit ur path size offset) = true →
        ur = Except.ok () ∧ 0 ≤ offset ∧ 0 < size ∧ size ≤ limit) := by
  constructor
  · intro hur hbad
    subst hur
    by_cases h1 : offset < 0
    · simp [get_view, h1, statusOf, putTaskCalled]
    · by_cases h2 : size ≤ 0
      · simp [get_view, h1, h2, statusOf, putTaskCalled]
      · by_cases h3 : size > limit
        · simp [get_view, h1, h2, h3, statusOf, putTaskCalled]
        · rcases hbad with hb | hb | hb
          · exact absurd hb h1
          · exact absurd hb h2
          · exact absurd hb h3
  · intro hcalled
    cases ur with
    | error e => simp [get_view, putTaskCalled] at hcalled
    | ok u =>
        cases u
        by_cases h1 : offset < 0
        · simp [get_view, h1, putTaskCalled] at hcalled
        · by_cases h2 : size ≤ 0
          · simp [get_view, h1, h2, putTaskCalled] at hcalled
          · by_cases h3 : size > limit
            · simp [get_view, h1, h2, h3, putTaskCalled] at hcalled
            · exact ⟨rfl, not_lt.mp h1, not_le.mp h2, not_lt.mp h3⟩

theorem get_view_range_checks_witness :
    statusOf (get_view OPS_SIZE_LIMIT (Except.ok ()) "/data/file.txt" 4096 (-1))
      = some 400
    ∧ putTaskCalled
        (get_view OPS_SIZE_LIMIT (Except.ok ()) "/data/file.txt" 4096 (-1))
      = false :=
  (get_view_range_checks OPS_SIZE_LIMIT (Except.ok ()) "/data/file.txt"
    4096 (-1)).1 rfl (Or.inl (by decide))

end IriApi
